import Mathlib

/-!
# Verification of the in-memory sliding-window rate limiter

Shallow embedding of the rate-limiting subsystem of the repository:

* `convex/lib/constants/rateLimits.ts` — the configuration table
  (`RATE_LIMITS`), the role multipliers (`ROLE_MULTIPLIERS`) and the
  resolution function (`getRateLimitConfig`);
* `convex/lib/services/rateLimitService.ts` — `RateLimitService.checkLimit`,
  `RateLimitService.reset`, the private `cleanup` sweep, the
  `MockRateLimitService` and the `createRateLimitService` factory;
* `convex/lib/middleware/withRateLimit.ts` — the `withRateLimit` decorator;
* `convex/lib/authHelpers.ts` — `requireAuth` and `isAdmin`.

Timestamps are milliseconds since epoch, embedded as `Int` (JavaScript
numbers are exact on this range).  The shared mutable `Map` is embedded as
an association list threaded through the functions; throwing is embedded
as an `Except`-style result carried next to the post-state.  The
`Math.random() < 0.01` cleanup trigger is embedded as an explicit boolean
oracle `doCleanup` supplied with each call.
-/

namespace RateLimiter

/-- One entry of the `RATE_LIMITS` table: `{ tokens, maxTokens, period }`. -/
structure RateLimitBase where
  tokens : Nat
  maxTokens : Nat
  period : Int
deriving DecidableEq

/-- Constant `PERIODS.MINUTE = 60 * 1000` (ms). -/
def PERIODS_MINUTE : Int := 60 * 1000

/-- Constant `PERIODS.HOUR = 60 * 60 * 1000` (ms). -/
def PERIODS_HOUR : Int := 60 * 60 * 1000

/-- The `RATE_LIMITS` object of `rateLimits.ts`, as a lookup from the
operation name.  An operation name outside the table yields `none`
(in TypeScript, indexing the object with such a name yields `undefined`). -/
def RATE_LIMITS : String → Option RateLimitBase
  | "SEND_MESSAGE" => some ⟨1, 10, PERIODS_MINUTE⟩
  | "UPLOAD_FILE" => some ⟨1, 5, PERIODS_MINUTE⟩
  | "DELETE_FILE" => some ⟨1, 20, PERIODS_MINUTE⟩
  | "API_CALL" => some ⟨1, 60, PERIODS_MINUTE⟩
  | "LOGIN_ATTEMPT" => some ⟨1, 5, PERIODS_MINUTE⟩
  | "REGISTER_USER" => some ⟨1, 3, PERIODS_HOUR⟩
  | "SEND_EMAIL" => some ⟨1, 10, PERIODS_HOUR⟩
  | _ => none

/-- The role type `keyof typeof ROLE_MULTIPLIERS`: the TypeScript signatures
of `getRateLimitConfig` and `checkLimit` restrict the role argument to the
three keys of the multiplier table. -/
inductive Role
  | user
  | premium
  | admin
deriving DecidableEq

/-- Table `ROLE_MULTIPLIERS = { user: 1, premium: 5, admin: 100 }`. -/
def ROLE_MULTIPLIERS : Role → Nat
  | .user => 1
  | .premium => 5
  | .admin => 100

/-- The errors thrown by the subsystem.  In the source all three are thrown
as JavaScript errors; we distinguish them by constructor:
`configError` is the error raised inside `getRateLimitConfig` when the
operation name is not a key of `RATE_LIMITS` (reading `.maxTokens` of
`undefined` throws), `rateLimitExceeded` is the
`Rate limit exceeded for ${operation}. Try again in ${resetIn} seconds.`
error of `checkLimit`, and `authRequired` is the
`Authentication required` error of `requireAuth`. -/
inductive AppError
  | configError (operation : String)
  | rateLimitExceeded (operation : String) (resetIn : Int)
  | authRequired
deriving DecidableEq

/-- Function `getRateLimitConfig(limitName, role)`: looks up the base limit and
returns it with `maxTokens` multiplied by the role multiplier
(`{ ...baseLimit, maxTokens: baseLimit.maxTokens * multiplier }`).
For an unknown operation name the lookup is `undefined` and reading
`.maxTokens` throws, embedded as the `configError` result. -/
def getRateLimitConfig (limitName : String) (role : Role) :
    Except AppError RateLimitBase :=
  match RATE_LIMITS limitName with
  | none => .error (.configError limitName)
  | some baseLimit =>
      .ok ⟨baseLimit.tokens, baseLimit.maxTokens * ROLE_MULTIPLIERS role,
           baseLimit.period⟩

/-- The shared `rateLimitTracker : Map<string, number[]>`, embedded as an
association list with the keys kept distinct (a `Map` has one entry per
key: `set` replaces the existing entry, `delete` removes it). -/
def Tracker : Type := List (String × List Int)

instance : DecidableEq Tracker := by
  unfold Tracker
  exact inferInstance

/-- The empty tracker (state at process start). -/
def emptyTracker : Tracker := []

/-- Lookup `rateLimitTracker.get(k) || []`. -/
def trackerGet (t : Tracker) (k : String) : List Int :=
  match t with
  | [] => []
  | (k', v) :: rest => if k' = k then v else trackerGet rest k

/-- Update `rateLimitTracker.set(k, v)`: replace the entry for `k`, or append a
fresh one. -/
def trackerSet (t : Tracker) (k : String) (v : List Int) : Tracker :=
  match t with
  | [] => [(k, v)]
  | (k', v') :: rest =>
      if k' = k then (k, v) :: rest else (k', v') :: trackerSet rest k v

/-- Deletion `rateLimitTracker.delete(k)`: remove the entry for `k`. -/
def trackerDelete (t : Tracker) (k : String) : Tracker :=
  match t with
  | [] => []
  | (k', v') :: rest =>
      if k' = k then trackerDelete rest k else (k', v') :: trackerDelete rest k

/-- Ceiling division `Math.ceil(a / b)` for an integer `a` and positive integer `b`
(the source divides by `1000`). -/
def ceilDivInt (a b : Int) : Int := -((-a).fdiv b)

/-- One iteration of the `cleanup` loop: filter a key's timestamps to
those newer than `now - 300000` (five minutes); when `filtered.length`
is `0` the key is deleted (`none`), otherwise the filtered list is
stored. -/
def cleanupEntry (now : Int) (kts : String × List Int) :
    Option (String × List Int) :=
  let filtered := kts.2.filter fun ts => decide (now - 300000 < ts)
  if filtered.length = 0 then none else some (kts.1, filtered)

/-- Sweep `RateLimitService.cleanup()`: sweep every key of the map. -/
def cleanup (now : Int) (t : Tracker) : Tracker :=
  t.filterMap (cleanupEntry now)

deriving instance DecidableEq for Except

/-- Result of one `checkLimit` call: what it returned (or threw) together
with the state of the shared tracker map after the call. -/
structure CheckResult where
  result : Except AppError Unit
  tracker : Tracker
deriving DecidableEq

/-- Method `RateLimitService.checkLimit(operation, key, role)` at time `now`
(`Date.now()`), with the `Math.random() < 0.01` draw embedded as the
boolean `doCleanup`:

* resolve the configuration (throws for an unknown operation);
* `trackerKey = `${operation}:${key}``, `windowStart = now - config.period`;
* filter the stored timestamps to those `> windowStart`;
* if at least `config.maxTokens` remain, throw `rateLimitExceeded` with
  `resetIn = Math.ceil((oldest + config.period - now) / 1000)` and leave
  the map untouched;
* otherwise push `now`, store the list, and run `cleanup` when the draw
  fires. -/
def checkLimit (operation key : String) (role : Role) (now : Int)
    (doCleanup : Bool) (tracker : Tracker) : CheckResult :=
  match getRateLimitConfig operation role with
  | .error e => ⟨.error e, tracker⟩
  | .ok config =>
      let trackerKey := operation ++ ":" ++ key
      let windowStart := now - config.period
      let timestamps := trackerGet tracker trackerKey
      let recentTimestamps := timestamps.filter fun ts => decide (windowStart < ts)
      if config.maxTokens ≤ recentTimestamps.length then
        let oldestTimestamp := recentTimestamps.headD 0
        let resetIn := ceilDivInt (oldestTimestamp + config.period - now) 1000
        ⟨.error (.rateLimitExceeded operation resetIn), tracker⟩
      else
        let updated := recentTimestamps ++ [now]
        let tracker' := trackerSet tracker trackerKey updated
        ⟨.ok (), if doCleanup then cleanup now tracker' else tracker'⟩

/-- Method `RateLimitService.reset(operation, key)`: delete the tracker entry. -/
def reset (operation key : String) (tracker : Tracker) : Tracker :=
  trackerDelete tracker (operation ++ ":" ++ key)

/-- The `recentTimestamps` list computed by `checkLimit`: the stored
timestamps of `` `${operation}:${key}` `` that are `> now - period`. -/
def recentOf (operation key : String) (period now : Int) (tracker : Tracker) :
    List Int :=
  (trackerGet tracker (operation ++ ":" ++ key)).filter fun ts =>
    decide (now - period < ts)

/-- One call of a trace: arguments of a `checkLimit` invocation, its
`Date.now()` value, and whether the one-percent cleanup draw fires. -/
structure Call where
  operation : String
  key : String
  role : Role
  now : Int
  doCleanup : Bool
deriving DecidableEq

/-- Run a list of `checkLimit` calls from a starting tracker state,
returning the final state. -/
def runCalls (calls : List Call) (t : Tracker) : Tracker :=
  match calls with
  | [] => t
  | c :: rest => runCalls rest (checkLimit c.operation c.key c.role c.now c.doCleanup t).tracker

/-- The calls of a trace that `checkLimit` accepts (returns without
throwing), in order. -/
def acceptedCalls (calls : List Call) (t : Tracker) : List Call :=
  match calls with
  | [] => []
  | c :: rest =>
      let r := checkLimit c.operation c.key c.role c.now c.doCleanup t
      match r.result with
      | .ok _ => c :: acceptedCalls rest r.tracker
      | .error _ => acceptedCalls rest r.tracker

/-- The results of a trace of `checkLimit` calls, in order: what each call
returned (or threw). -/
def runResults (calls : List Call) (t : Tracker) : List (Except AppError Unit) :=
  match calls with
  | [] => []
  | c :: rest =>
      let r := checkLimit c.operation c.key c.role c.now c.doCleanup t
      r.result :: runResults rest r.tracker

/-- Number of accepted calls of a trace. -/
def acceptedCount (calls : List Call) (t : Tracker) : Nat :=
  (acceptedCalls calls t).length

/-- A trace of `checkLimit` calls for one operation, key and role at the
given times, with the cleanup draw never firing. -/
def callsAt (operation key : String) (role : Role) (times : List Int) :
    List Call :=
  times.map fun tm => ⟨operation, key, role, tm, false⟩

/-!
## Helper lemmas about the embedded map and the configuration table
-/

theorem trackerGet_trackerSet_self (t : Tracker) (k : String) (v : List Int) :
    trackerGet (trackerSet t k v) k = v := by
  induction t with
  | nil => simp [trackerSet, trackerGet]
  | cons hd tl ih =>
      obtain ⟨a, b⟩ := hd
      by_cases h : a = k <;> simp [trackerSet, trackerGet, h, ih]

theorem trackerGet_trackerDelete_self (t : Tracker) (k : String) :
    trackerGet (trackerDelete t k) k = [] := by
  induction t with
  | nil => simp [trackerDelete, trackerGet]
  | cons hd tl ih =>
      obtain ⟨a, b⟩ := hd
      by_cases h : a = k <;> simp [trackerDelete, trackerGet, h, ih]

theorem RATE_LIMITS_maxTokens_pos {op : String} {base : RateLimitBase}
    (h : RATE_LIMITS op = some base) : 0 < base.maxTokens := by
  unfold RATE_LIMITS at h
  split at h <;> first
    | exact Option.noConfusion h
    | (injection h with h2; subst h2; decide)

theorem RATE_LIMITS_period_pos {op : String} {base : RateLimitBase}
    (h : RATE_LIMITS op = some base) : 0 < base.period := by
  unfold RATE_LIMITS at h
  split at h <;> first
    | exact Option.noConfusion h
    | (injection h with h2; subst h2; decide)

theorem ROLE_MULTIPLIERS_pos (r : Role) : 0 < ROLE_MULTIPLIERS r := by
  cases r <;> decide

/-- Unfolding of `checkLimit` for an operation present in the table. -/
theorem checkLimit_known (operation key : String) (role : Role) (now : Int)
    (doCleanup : Bool) (tracker : Tracker) (base : RateLimitBase)
    (hb : RATE_LIMITS operation = some base) :
    checkLimit operation key role now doCleanup tracker =
      if base.maxTokens * ROLE_MULTIPLIERS role
          ≤ (recentOf operation key base.period now tracker).length then
        ⟨.error (.rateLimitExceeded operation
            (ceilDivInt ((recentOf operation key base.period now tracker).headD 0
              + base.period - now) 1000)), tracker⟩
      else
        ⟨.ok (),
         if doCleanup then
           cleanup now (trackerSet tracker (operation ++ ":" ++ key)
             (recentOf operation key base.period now tracker ++ [now]))
         else
           trackerSet tracker (operation ++ ":" ++ key)
             (recentOf operation key base.period now tracker ++ [now])⟩ := by
  unfold checkLimit getRateLimitConfig recentOf
  rw [hb]

/-- Unfolding of `checkLimit` for an operation absent from the table. -/
theorem checkLimit_unknown (operation key : String) (role : Role) (now : Int)
    (doCleanup : Bool) (tracker : Tracker)
    (hn : RATE_LIMITS operation = none) :
    checkLimit operation key role now doCleanup tracker
      = ⟨.error (.configError operation), tracker⟩ := by
  unfold checkLimit getRateLimitConfig
  rw [hn]

end RateLimiter

namespace RateLimiter

/-!
## The wrapper (`withRateLimit.ts`) and the auth helpers it uses
-/

/-- The user record of `authHelpers.ts` (`AuthUser`). -/
structure AuthUser where
  _id : String
  name : String
  email : String
  image : Option String
  role : Option String
deriving DecidableEq

/-- Helper `requireAuth`: the identity resolved by `getAuthUser` is `none` when
the caller is unauthenticated, in which case the wrapper throws
`Authentication required`; otherwise the user is returned. -/
def requireAuth (user : Option AuthUser) : Except AppError AuthUser :=
  match user with
  | none => .error .authRequired
  | some u => .ok u

/-- Helper `isAdmin(user)`: the email whitelist (if the email is truthy, i.e.
non-empty, and whitelisted), falling back to `user.role === 'admin'`.
The `ADMIN_EMAILS` list of `config.ts` is passed as a parameter. -/
def isAdmin (adminEmails : List String) (u : AuthUser) : Bool :=
  if !u.email.isEmpty && adminEmails.contains u.email then true
  else u.role == some "admin"

/-- The `options` argument of `withRateLimit` (`getKey` / `getRole`
overrides; the unused `ctx` parameter of `getKey` is omitted). -/
structure WrapOptions (Args : Type) where
  getKey : Option (Args → AuthUser → String)
  getRole : Option (AuthUser → Role)

/-- Key derivation `options?.getKey?.(ctx, args, user) ?? user._id`. -/
def derivedKey {Args : Type} (options : WrapOptions Args) (args : Args)
    (user : AuthUser) : String :=
  match options.getKey with
  | some f => f args user
  | none => user._id

/-- Role derivation `options?.getRole?.(user) ?? (isAdmin(user) ? 'admin' : 'user')`. -/
def derivedRole {Args : Type} (adminEmails : List String)
    (options : WrapOptions Args) (user : AuthUser) : Role :=
  match options.getRole with
  | some f => f user
  | none => if isAdmin adminEmails user then .admin else .user

/-- The `withRateLimit` decorator: require authentication, derive key and
role, check the rate limit, and run the wrapped handler only on success.
The wrapped handler is embedded as a pure function of the arguments and
the resolved user; the decorated function returns the thrown error or the
handler's output, together with the tracker state after the call. -/
def withRateLimit {Args Output : Type} (adminEmails : List String)
    (handler : Args → AuthUser → Output) (operation : String)
    (options : WrapOptions Args) (authUser : Option AuthUser) (now : Int)
    (doCleanup : Bool) (args : Args) (tracker : Tracker) :
    Except AppError Output × Tracker :=
  match requireAuth authUser with
  | .error e => (.error e, tracker)
  | .ok user =>
      let key := derivedKey options args user
      let role := derivedRole adminEmails options user
      let r := checkLimit operation key role now doCleanup tracker
      match r.result with
      | .error e => (.error e, r.tracker)
      | .ok _ => (.ok (handler args user), r.tracker)

/-!
## The mock service and the factory
-/

/-- Which service `createRateLimitService` returns. -/
inductive ServiceKind
  | mock
  | production
deriving DecidableEq

/-- Factory `createRateLimitService(ctx)`: a `MockRateLimitService` when
`process.env.NODE_ENV` is `'development'` or `'test'`, otherwise the
enforcing `RateLimitService`. -/
def createRateLimitService (nodeEnv : String) : ServiceKind :=
  if nodeEnv = "development" ∨ nodeEnv = "test" then .mock else .production

/-- One recorded check of the `MockRateLimitService`. -/
structure MockCheck where
  operation : String
  key : String
  role : Role
deriving DecidableEq

/-- Mock `MockRateLimitService.checkLimit`: records the check and returns
without throwing. -/
def mockCheckLimit (operation key : String) (role : Role)
    (checks : List MockCheck) : Except AppError Unit × List MockCheck :=
  (.ok (), checks ++ [⟨operation, key, role⟩])

/-!
## Concrete traces used by the claims
-/

/-- The `SEND_MESSAGE` example trace: ten immediate calls, an eleventh
call inside the same window, and a call 61 seconds after the first. -/
def c2Trace : List Call :=
  List.replicate 10 (⟨"SEND_MESSAGE", "A", .user, 0, false⟩ : Call)
    ++ [⟨"SEND_MESSAGE", "A", .user, 0, false⟩,
        ⟨"SEND_MESSAGE", "A", .user, 61000, false⟩]

/-- A trace exercising the cleanup sweep against the hour-long
`SEND_EMAIL` window: ten `SEND_EMAIL` calls in the first ten
milliseconds, a `SEND_MESSAGE` call at `t = 310001` whose one-percent
cleanup draw fires (sweeping every timestamp older than five minutes),
and another `SEND_EMAIL` call one millisecond later. -/
def c1Trace : List Call :=
  (List.range 10).map (fun i => ⟨"SEND_EMAIL", "A", .user, (i : Int), false⟩)
    ++ [⟨"SEND_MESSAGE", "A", .user, 310001, true⟩,
        ⟨"SEND_EMAIL", "A", .user, 310002, false⟩]

/-- A trace touching two keys at different times: key `A` at `t = 0`,
key `B` at `t = 100000`. -/
def c3Trace : List Call :=
  [⟨"SEND_MESSAGE", "A", .user, 0, false⟩,
   ⟨"SEND_MESSAGE", "B", .user, 100000, false⟩]

end RateLimiter

namespace RateLimiter

/-!
## Further helper lemmas
-/

theorem cleanup_cons (now : Int) (a : String) (b : List Int) (tl : Tracker) :
    cleanup now ((a, b) :: tl)
      = (if (b.filter fun x => decide (now - 300000 < x)).length = 0
         then cleanup now tl
         else (a, b.filter fun x => decide (now - 300000 < x)) :: cleanup now tl) := by
  unfold cleanup
  rw [List.filterMap_cons]
  have hE : cleanupEntry now (a, b)
      = if (b.filter fun x => decide (now - 300000 < x)).length = 0
        then none
        else some (a, b.filter fun x => decide (now - 300000 < x)) := rfl
  rw [hE]
  by_cases he : (b.filter fun x => decide (now - 300000 < x)).length = 0
  · rw [if_pos he, if_pos he]
  · rw [if_neg he, if_neg he]

theorem cleanup_entries (now : Int) (t : Tracker) (k : String) :
    ∀ ts ∈ trackerGet (cleanup now t) k, now - 300000 < ts := by
  induction t with
  | nil =>
      intro ts h
      simp [cleanup, trackerGet] at h
  | cons hd tl ih =>
      obtain ⟨a, b⟩ := hd
      intro ts h
      rw [cleanup_cons] at h
      by_cases he : (b.filter fun x => decide (now - 300000 < x)).length = 0
      · rw [if_pos he] at h
        exact ih ts h
      · rw [if_neg he] at h
        by_cases hk : a = k
        · rw [trackerGet, if_pos hk] at h
          have := (List.mem_filter.mp h).2
          simpa using this
        · rw [trackerGet, if_neg hk] at h
          exact ih ts h

theorem filter_window_all {lo period tm : Int} {L : List Int}
    (hL : ∀ x ∈ L, lo < x) (htm : tm ≤ lo + period) :
    L.filter (fun ts => decide (tm - period < ts)) = L := by
  apply List.filter_eq_self.mpr
  intro a ha
  have := hL a ha
  simp only [decide_eq_true_eq]
  omega

end RateLimiter

namespace RateLimiter

/-!
## Trace lemmas for the within-one-window counting argument
-/

theorem callsAt_cons (operation key : String) (role : Role) (tm : Int)
    (rest : List Int) :
    callsAt operation key role (tm :: rest)
      = ⟨operation, key, role, tm, false⟩ :: callsAt operation key role rest := by
  simp [callsAt]

/-- Counting accepted calls of a single-key trace whose times all lie in
one window `(lo, lo + period]`: starting from a state whose stored list
for the key lies above `lo`, exactly
`min (number of calls) (effectiveMax - stored)` calls are accepted. -/
theorem acceptedCount_window (operation key : String) (role : Role)
    (base : RateLimitBase) (hb : RATE_LIMITS operation = some base)
    (lo : Int) (times : List Int) :
    ∀ tracker : Tracker,
      (∀ x ∈ trackerGet tracker (operation ++ ":" ++ key), lo < x) →
      (∀ x ∈ times, lo < x ∧ x ≤ lo + base.period) →
      acceptedCount (callsAt operation key role times) tracker
        = min times.length
            (base.maxTokens * ROLE_MULTIPLIERS role
              - (trackerGet tracker (operation ++ ":" ++ key)).length) := by
  induction times with
  | nil =>
      intro tracker hL ht
      simp [acceptedCount, acceptedCalls, callsAt]
  | cons tm rest ih =>
      intro tracker hL ht
      have htm := ht tm (by simp)
      have hrest : ∀ x ∈ rest, lo < x ∧ x ≤ lo + base.period :=
        fun x hx => ht x (by simp [hx])
      have hrec : recentOf operation key base.period tm tracker
          = trackerGet tracker (operation ++ ":" ++ key) := by
        unfold recentOf
        exact filter_window_all hL htm.2
      rw [callsAt_cons]
      by_cases hc : base.maxTokens * ROLE_MULTIPLIERS role
          ≤ (recentOf operation key base.period tm tracker).length
      · -- rejected: state unchanged, nothing accepted any more
        have hstep := checkLimit_known operation key role tm false tracker base hb
        rw [if_pos hc] at hstep
        rw [acceptedCount, acceptedCalls, hstep]
        simp only
        rw [← acceptedCount, ih tracker hL hrest]
        rw [hrec] at hc
        omega
      · -- accepted: the key's list grows by `tm`
        have hstep := checkLimit_known operation key role tm false tracker base hb
        rw [if_neg hc, if_neg Bool.false_ne_true] at hstep
        rw [acceptedCount, acceptedCalls, hstep]
        simp only [List.length_cons]
        have hL' : ∀ x ∈ trackerGet
            (trackerSet tracker (operation ++ ":" ++ key)
              (recentOf operation key base.period tm tracker ++ [tm]))
            (operation ++ ":" ++ key), lo < x := by
          rw [trackerGet_trackerSet_self, hrec]
          intro x hx
          rcases List.mem_append.mp hx with hx | hx
          · exact hL x hx
          · have : x = tm := by simpa using hx
            subst this
            exact htm.1
        rw [← acceptedCount, ih _ hL' hrest, trackerGet_trackerSet_self, hrec]
        rw [hrec] at hc
        simp only [List.length_append, List.length_singleton]
        omega

end RateLimiter

namespace RateLimiter

/-!
## Claims
-/

/-- C2. For every known operation, key and role, `checkLimit` computes
`effectiveMax = baseMax * multiplier(role)` and
`windowStart = now - period`, filters the stored timestamps of the key to
those strictly greater than `windowStart`, throws the rate-limit-exceeded
error with `resetIn = ceil((oldestRetained + period - now) / 1000)`
exactly when the filtered count is at least `effectiveMax`, and otherwise
appends `now` to the filtered list, persists it, and succeeds.  In
particular, for `SEND_MESSAGE` (base max 10 per 60000 ms) at role `user`:
ten immediate calls succeed, the eleventh in the same window fails with a
retry-after of 60 seconds, and a call 61 seconds after the first
succeeds. -/
theorem C2_checkLimit_behavior (operation key : String) (role : Role)
    (now : Int) (tracker : Tracker) (base : RateLimitBase)
    (hb : RATE_LIMITS operation = some base) :
    (base.maxTokens * ROLE_MULTIPLIERS role
        ≤ (recentOf operation key base.period now tracker).length →
      checkLimit operation key role now false tracker =
        ⟨.error (.rateLimitExceeded operation
            (ceilDivInt ((recentOf operation key base.period now tracker).headD 0
              + base.period - now) 1000)), tracker⟩)
    ∧ ((recentOf operation key base.period now tracker).length
         < base.maxTokens * ROLE_MULTIPLIERS role →
      checkLimit operation key role now false tracker =
        ⟨.ok (), trackerSet tracker (operation ++ ":" ++ key)
            (recentOf operation key base.period now tracker ++ [now])⟩)
    ∧ runResults c2Trace emptyTracker
        = List.replicate 10 (.ok ())
            ++ [.error (.rateLimitExceeded "SEND_MESSAGE" 60), .ok ()] := by
  refine ⟨?_, ?_, by decide⟩
  · intro hc
    rw [checkLimit_known operation key role now false tracker base hb,
      if_pos hc]
  · intro hc
    rw [checkLimit_known operation key role now false tracker base hb,
      if_neg (by omega)]
    simp

/-- Witness for C2: the call 61 seconds after ten immediate calls. -/
theorem C2_witness :
    checkLimit "SEND_MESSAGE" "A" .user 61000 false
        [("SEND_MESSAGE:A", [0, 0, 0, 0, 0, 0, 0, 0, 0, 0])]
      = ⟨.ok (), trackerSet [("SEND_MESSAGE:A", [0, 0, 0, 0, 0, 0, 0, 0, 0, 0])]
          ("SEND_MESSAGE" ++ ":" ++ "A")
          (recentOf "SEND_MESSAGE" "A" PERIODS_MINUTE 61000
              [("SEND_MESSAGE:A", [0, 0, 0, 0, 0, 0, 0, 0, 0, 0])] ++ [61000])⟩ :=
  (C2_checkLimit_behavior "SEND_MESSAGE" "A" .user 61000
      [("SEND_MESSAGE:A", [0, 0, 0, 0, 0, 0, 0, 0, 0, 0])]
      ⟨1, 10, PERIODS_MINUTE⟩ (by decide)).2.1 (by decide)

/-- C4. For every operation present in the configuration table and
every role, `getRateLimitConfig` is a pure function (a Lean `def`, hence
deterministic and effect-free) returning the base configuration with
`maxTokens` multiplied by the role's multiplier and `period` (the window
length) unchanged; the multiplier used when the role argument is left at
its default (`'user'`, the base role, which is the fallback the signature
imposes for any call that does not name one of the tabled roles) is `1`. -/
theorem C4_getRateLimitConfig_pure (limitName : String) (role : Role)
    (base : RateLimitBase) (hb : RATE_LIMITS limitName = some base) :
    getRateLimitConfig limitName role =
      .ok ⟨base.tokens, base.maxTokens * ROLE_MULTIPLIERS role, base.period⟩
    ∧ ROLE_MULTIPLIERS .user = 1 := by
  unfold getRateLimitConfig
  rw [hb]
  exact ⟨rfl, rfl⟩

/-- Witness for C4 at `SEND_MESSAGE` / `premium`. -/
theorem C4_witness :
    getRateLimitConfig "SEND_MESSAGE" .premium = .ok ⟨1, 50, 60000⟩ := by
  have h := (C4_getRateLimitConfig_pure "SEND_MESSAGE" .premium
      ⟨1, 10, PERIODS_MINUTE⟩ (by decide)).1
  rw [h]
  decide

/-- C5. For every operation name not present in the configuration
table and every key and role, `checkLimit` raises the configuration error
(the fail-fast programmer error thrown while resolving the configuration,
distinct from a `rateLimitExceeded` rejection), leaves the tracker map
untouched, and in particular never returns success and never throws a
rate-limit rejection. -/
theorem C5_unknown_operation_config_error (operation key : String)
    (role : Role) (now : Int) (doCleanup : Bool) (tracker : Tracker)
    (hn : RATE_LIMITS operation = none) :
    getRateLimitConfig operation role = .error (.configError operation)
    ∧ checkLimit operation key role now doCleanup tracker
        = ⟨.error (.configError operation), tracker⟩ := by
  unfold checkLimit getRateLimitConfig
  rw [hn]
  exact ⟨rfl, rfl⟩

/-- Witness for C5 at the unknown operation name `"DOWNLOAD_FILE"`. -/
theorem C5_witness :
    checkLimit "DOWNLOAD_FILE" "A" .user 0 false emptyTracker
      = ⟨.error (.configError "DOWNLOAD_FILE"), emptyTracker⟩ :=
  (C5_unknown_operation_config_error "DOWNLOAD_FILE" "A" .user 0 false
    emptyTracker (by decide)).2

/-- C7. For every operation in the configuration table, every key,
every role, and every prior tracker state (any history of calls, including
histories ending in rejection), `reset(operation, key)` followed
immediately by `checkLimit` on the same `(operation, key)` succeeds. -/
theorem C7_reset_then_check_succeeds (operation key : String) (role : Role)
    (now : Int) (doCleanup : Bool) (tracker : Tracker) (base : RateLimitBase)
    (hb : RATE_LIMITS operation = some base) :
    (checkLimit operation key role now doCleanup
        (reset operation key tracker)).result = .ok () := by
  have hpos : 0 < base.maxTokens * ROLE_MULTIPLIERS role :=
    Nat.mul_pos (RATE_LIMITS_maxTokens_pos hb) (ROLE_MULTIPLIERS_pos role)
  unfold checkLimit getRateLimitConfig reset
  rw [hb]
  simp only
  rw [trackerGet_trackerDelete_self]
  simp only [List.filter_nil, List.length_nil]
  rw [if_neg (by omega)]

/-- Witness for C7: a key saturated to rejection, reset, then checked. -/
theorem C7_witness :
    (checkLimit "SEND_MESSAGE" "A" .user 5 false
        (reset "SEND_MESSAGE" "A"
          [("SEND_MESSAGE:A", [0, 0, 0, 0, 0, 0, 0, 0, 0, 0])])).result
      = .ok () :=
  C7_reset_then_check_succeeds "SEND_MESSAGE" "A" .user 5 false
    [("SEND_MESSAGE:A", [0, 0, 0, 0, 0, 0, 0, 0, 0, 0])]
    ⟨1, 10, PERIODS_MINUTE⟩ (by decide)

/-- C9. Whenever `checkLimit` throws the rate-limit-exceeded error,
the shared tracker map is exactly as it was before the call: no timestamp
is appended and the pruning computed during the rejected check is not
persisted (and the cleanup sweep cannot run, since it is reached only on
the success path). -/
theorem C9_reject_leaves_state (operation key : String) (role : Role)
    (now : Int) (doCleanup : Bool) (tracker : Tracker) (op' : String)
    (resetIn : Int)
    (h : (checkLimit operation key role now doCleanup tracker).result
          = .error (.rateLimitExceeded op' resetIn)) :
    (checkLimit operation key role now doCleanup tracker).tracker
      = tracker := by
  cases hR : RATE_LIMITS operation with
  | none => rw [checkLimit_unknown operation key role now doCleanup tracker hR]
  | some base =>
      rw [checkLimit_known operation key role now doCleanup tracker base hR] at h ⊢
      by_cases hc : base.maxTokens * ROLE_MULTIPLIERS role
          ≤ (recentOf operation key base.period now tracker).length
      · rw [if_pos hc]
      · rw [if_neg hc] at h
        exact absurd h (by simp)

/-- Witness for C9: the eleventh immediate `SEND_MESSAGE` call is
rejected and the tracker is left untouched. -/
theorem C9_witness :
    (checkLimit "SEND_MESSAGE" "A" .user 5 false
        [("SEND_MESSAGE:A", [0, 0, 0, 0, 0, 0, 0, 0, 0, 0])]).tracker
      = [("SEND_MESSAGE:A", [0, 0, 0, 0, 0, 0, 0, 0, 0, 0])] :=
  C9_reject_leaves_state "SEND_MESSAGE" "A" .user 5 false
    [("SEND_MESSAGE:A", [0, 0, 0, 0, 0, 0, 0, 0, 0, 0])]
    "SEND_MESSAGE" 60 (by decide)

/-- C6. For every wrapped handler: when identity resolution fails the
wrapper rejects the call as unauthenticated without invoking the handler
(the result is the same for every handler); the rate-limit check runs
before the handler, which is invoked only when the check succeeds and then
receives the original arguments plus the resolved identity; and when the
check throws, the wrapper returns that exact error unchanged. -/
theorem C6_withRateLimit_wrapper {Args Output : Type}
    (adminEmails : List String) (operation : String)
    (options : WrapOptions Args) (now : Int) (doCleanup : Bool)
    (args : Args) (tracker : Tracker) :
    (∀ handler : Args → AuthUser → Output,
      withRateLimit adminEmails handler operation options none now doCleanup
          args tracker
        = (.error .authRequired, tracker))
    ∧ (∀ (user : AuthUser) (e : AppError)
          (handler : Args → AuthUser → Output),
        (checkLimit operation (derivedKey options args user)
            (derivedRole adminEmails options user) now doCleanup
            tracker).result = .error e →
        withRateLimit adminEmails handler operation options (some user) now
            doCleanup args tracker
          = (.error e,
             (checkLimit operation (derivedKey options args user)
                (derivedRole adminEmails options user) now doCleanup
                tracker).tracker))
    ∧ (∀ (user : AuthUser) (handler : Args → AuthUser → Output),
        (checkLimit operation (derivedKey options args user)
            (derivedRole adminEmails options user) now doCleanup
            tracker).result = .ok () →
        withRateLimit adminEmails handler operation options (some user) now
            doCleanup args tracker
          = (.ok (handler args user),
             (checkLimit operation (derivedKey options args user)
                (derivedRole adminEmails options user) now doCleanup
                tracker).tracker)) := by
  refine ⟨fun handler => rfl, ?_, ?_⟩
  · intro user e handler h
    simp only [withRateLimit, requireAuth, h]
  · intro user handler h
    simp only [withRateLimit, requireAuth, h]

/-- Witness for C6: an unauthenticated call is rejected without running
the handler. -/
theorem C6_witness :
    withRateLimit ([] : List String) (fun (n : Nat) (_ : AuthUser) => n + 1)
        "SEND_MESSAGE" ⟨none, none⟩ none 0 false 41 emptyTracker
      = (.error .authRequired, emptyTracker) :=
  (C6_withRateLimit_wrapper ([] : List String) "SEND_MESSAGE" ⟨none, none⟩
      0 false 41 emptyTracker).1 (fun n _ => n + 1)

/-- C10. When `NODE_ENV` is `'development'` or `'test'`, the factory
returns the mock service, whose `checkLimit` records the check and never
throws (so no call is rejected in those environments); for every other
environment the factory returns the enforcing service. -/
theorem C10_factory_env (nodeEnv operation key : String) (role : Role)
    (checks : List MockCheck) :
    (nodeEnv = "development" ∨ nodeEnv = "test" →
      createRateLimitService nodeEnv = .mock)
    ∧ (nodeEnv ≠ "development" → nodeEnv ≠ "test" →
      createRateLimitService nodeEnv = .production)
    ∧ (mockCheckLimit operation key role checks).1 = .ok ()
    ∧ (mockCheckLimit operation key role checks).2
        = checks ++ [⟨operation, key, role⟩] := by
  refine ⟨fun h => ?_, fun h1 h2 => ?_, rfl, rfl⟩
  · simp [createRateLimitService, h]
  · simp [createRateLimitService, h1, h2]

/-- Witness for C10: the test environment gets the mock service and a
mock check is recorded without throwing. -/
theorem C10_witness :
    createRateLimitService "test" = .mock
    ∧ (mockCheckLimit "SEND_MESSAGE" "A" .user []).1 = .ok () := by
  have h := C10_factory_env "test" "SEND_MESSAGE" "A" .user []
  exact ⟨h.1 (Or.inr rfl), h.2.2.1⟩

/-- C1 (evaluation of the violating run).  The cleanup sweep retains
only five minutes of history while `SEND_EMAIL` has a one-hour window
(`effectiveMax = 10` for role `user`): on `c1Trace` all eleven
`SEND_EMAIL` calls are accepted — ten at `t = 0..9` ms, a cleanup sweep
fired by an accepted `SEND_MESSAGE` call at `t = 310001` discards them,
and a further `SEND_EMAIL` call at `t = 310002` is accepted — so eleven
accepted calls lie inside one sliding window of length 3600000 ms,
exceeding the effective limit of ten. -/
theorem C1_cleanup_exceeds_limit :
    getRateLimitConfig "SEND_EMAIL" .user = .ok ⟨1, 10, 3600000⟩
    ∧ ((acceptedCalls c1Trace emptyTracker).filter fun c =>
          decide (c.operation = "SEND_EMAIL")).length = 11
    ∧ (((acceptedCalls c1Trace emptyTracker).filter fun c =>
          decide (c.operation = "SEND_EMAIL")).all fun c =>
            decide (310002 - 3600000 < c.now) && decide (c.now ≤ 310002))
        = true := by
  decide

/-- C3 (counterexample to the claim as stated).  Both calls of
`c3Trace` are accepted; at the instant of the second call
(`now = 100000`) the tracker still retains timestamp `0` for key
`SEND_MESSAGE:A`, which lies outside `[now - window, now] = [40000,
100000]` for the 60000 ms `SEND_MESSAGE` window. -/
theorem C3_counterexample :
    runResults c3Trace emptyTracker = [.ok (), .ok ()]
    ∧ trackerGet (runCalls c3Trace emptyTracker) ("SEND_MESSAGE" ++ ":" ++ "A")
        = [0]
    ∧ RATE_LIMITS "SEND_MESSAGE" = some ⟨1, 10, 60000⟩
    ∧ ¬ ((100000 : Int) - 60000 ≤ 0) := by
  decide

/-- C3 (amended).  (1) Right after a successful `checkLimit` (without
a cleanup sweep) the persisted list for the checked key lies within
`(now - window, now]` — stale timestamps are discarded at the key's next
accepted check.  (2) Timestamps outside the current window are never
consulted: the outcome of a check depends only on the stored timestamps
inside the window.  (3) A cleanup sweep retains only timestamps newer
than the five-minute horizon.  Between calls, however, a key may retain
timestamps older than its window (see the counterexample). -/
theorem C3_amended_retention :
    (∀ (operation key : String) (role : Role) (now : Int) (tracker : Tracker)
        (base : RateLimitBase),
      RATE_LIMITS operation = some base →
      (∀ ts ∈ trackerGet tracker (operation ++ ":" ++ key), ts ≤ now) →
      (checkLimit operation key role now false tracker).result = .ok () →
      ∀ ts ∈ trackerGet (checkLimit operation key role now false tracker).tracker
          (operation ++ ":" ++ key),
        now - base.period < ts ∧ ts ≤ now)
    ∧ (∀ (operation key : String) (role : Role) (now : Int) (doCleanup : Bool)
          (t₁ t₂ : Tracker) (base : RateLimitBase),
        RATE_LIMITS operation = some base →
        recentOf operation key base.period now t₁
          = recentOf operation key base.period now t₂ →
        (checkLimit operation key role now doCleanup t₁).result
          = (checkLimit operation key role now doCleanup t₂).result)
    ∧ (∀ (now : Int) (t : Tracker) (k : String),
        ∀ ts ∈ trackerGet (cleanup now t) k, now - 300000 < ts) := by
  refine ⟨?_, ?_, cleanup_entries⟩
  · intro operation key role now tracker base hb hle hok ts hts
    rw [checkLimit_known operation key role now false tracker base hb]
      at hok hts
    by_cases hc : base.maxTokens * ROLE_MULTIPLIERS role
        ≤ (recentOf operation key base.period now tracker).length
    · rw [if_pos hc] at hok
      exact absurd hok (by simp)
    · rw [if_neg hc, if_neg Bool.false_ne_true] at hts
      simp only at hts
      rw [trackerGet_trackerSet_self] at hts
      rcases List.mem_append.mp hts with hmem | hmem
      · unfold recentOf at hmem
        have h1 := List.mem_filter.mp hmem
        refine ⟨by simpa using h1.2, hle ts h1.1⟩
      · have : ts = now := by simpa using hmem
        subst this
        exact ⟨by have := RATE_LIMITS_period_pos hb; omega, le_refl _⟩
  · intro operation key role now doCleanup t₁ t₂ base hb hf
    rw [checkLimit_known operation key role now doCleanup t₁ base hb,
      checkLimit_known operation key role now doCleanup t₂ base hb, hf]
    by_cases hc : base.maxTokens * ROLE_MULTIPLIERS role
        ≤ (recentOf operation key base.period now t₂).length
    · rw [if_pos hc, if_pos hc]
    · rw [if_neg hc, if_neg hc]

/-- Witness for C3 (amended): a sweep at `now = 400000` retains `350000`
(which is newer than the horizon) and the theorem yields the bound. -/
theorem C3_witness :
    (400000 : Int) - 300000 < 350000 :=
  C3_amended_retention.2.2 400000 [("SEND_EMAIL:A", [0, 350000])]
    "SEND_EMAIL:A" 350000 (by decide)

/-- C8 (counterexample to the claim as stated).  `SEND_MESSAGE` has
nonzero base max 10; replacing the `user` multiplier (1) by the strictly
larger `premium` multiplier (5) leaves the number of admitted calls of
the one-call pattern `[0]` unchanged at 1, so the count does not strictly
increase even though the base max is not 0. -/
theorem C8_counterexample :
    ROLE_MULTIPLIERS .user < ROLE_MULTIPLIERS .premium
    ∧ RATE_LIMITS "SEND_MESSAGE" = some ⟨1, 10, 60000⟩
    ∧ acceptedCount (callsAt "SEND_MESSAGE" "A" .user [0]) emptyTracker
        = acceptedCount (callsAt "SEND_MESSAGE" "A" .premium [0]) emptyTracker
    ∧ (10 : Nat) ≠ 0 := by
  decide

/-- C8 (amended).  Holding the operation and the call times fixed,
with all calls lying within one window `(lo, lo + period]` of the
configured length and starting from a fresh tracker, the number of
admitted calls equals `min (#calls) effectiveMax`; hence a larger
multiplier never decreases the admitted count, and a strictly larger
multiplier strictly increases it exactly when the calls outnumber the
smaller effective limit (with fewer calls the count is unchanged even for
nonzero base max). -/
theorem C8_amended_monotonicity (operation key : String)
    (base : RateLimitBase) (times : List Int) (lo : Int) (r r' : Role)
    (hb : RATE_LIMITS operation = some base)
    (ht : ∀ x ∈ times, lo < x ∧ x ≤ lo + base.period)
    (hm : ROLE_MULTIPLIERS r ≤ ROLE_MULTIPLIERS r') :
    acceptedCount (callsAt operation key r times) emptyTracker
      = min times.length (base.maxTokens * ROLE_MULTIPLIERS r)
    ∧ acceptedCount (callsAt operation key r' times) emptyTracker
      = min times.length (base.maxTokens * ROLE_MULTIPLIERS r')
    ∧ acceptedCount (callsAt operation key r times) emptyTracker
        ≤ acceptedCount (callsAt operation key r' times) emptyTracker
    ∧ (ROLE_MULTIPLIERS r < ROLE_MULTIPLIERS r' →
        base.maxTokens * ROLE_MULTIPLIERS r < times.length →
        acceptedCount (callsAt operation key r times) emptyTracker
          < acceptedCount (callsAt operation key r' times) emptyTracker) := by
  have hempty : ∀ x ∈ trackerGet emptyTracker (operation ++ ":" ++ key), lo < x := by
    intro x hx
    simp [emptyTracker, trackerGet] at hx
  have h1 := acceptedCount_window operation key r base hb lo times
    emptyTracker hempty ht
  have h2 := acceptedCount_window operation key r' base hb lo times
    emptyTracker hempty ht
  have hzero : (trackerGet emptyTracker (operation ++ ":" ++ key)).length = 0 := rfl
  rw [hzero, Nat.sub_zero] at h1 h2
  have hmul : base.maxTokens * ROLE_MULTIPLIERS r
      ≤ base.maxTokens * ROLE_MULTIPLIERS r' :=
    Nat.mul_le_mul_left _ hm
  refine ⟨h1, h2, ?_, ?_⟩
  · rw [h1, h2]
    omega
  · intro hm' hn
    have hpos := RATE_LIMITS_maxTokens_pos hb
    have hmul' : base.maxTokens * ROLE_MULTIPLIERS r
        < base.maxTokens * ROLE_MULTIPLIERS r' :=
      Nat.mul_lt_mul_of_le_of_lt (le_refl _) hm' hpos
    rw [h1, h2]
    omega

/-- Witness for C8 (amended): twelve calls at `t = 1` under `user`
(limit 10) versus `premium` (limit 50). -/
theorem C8_witness :
    acceptedCount (callsAt "SEND_MESSAGE" "A" .user (List.replicate 12 1))
        emptyTracker
      < acceptedCount (callsAt "SEND_MESSAGE" "A" .premium (List.replicate 12 1))
        emptyTracker :=
  (C8_amended_monotonicity "SEND_MESSAGE" "A" ⟨1, 10, PERIODS_MINUTE⟩
      (List.replicate 12 1) 0 .user .premium (by decide) (by decide)
      (by decide)).2.2.2 (by decide) (by decide)

end RateLimiter
